import Mathlib

set_option maxRecDepth 20000

-- Verification of the session-authentication core of the repository:
-- a shallow embedding of the ExpiringDict TTL map, the SessionAuth /
-- SessionExpAuth / SessionDBAuth session stores, the path-exclusion
-- matcher, the BasicAuth header pipeline, and the authenticator
-- factory wiring, together with theorems settling the spec claims.
-- Wall-clock time is an explicit parameter of every operation that
-- consults the clock; Python None-able values are Option; functions
-- whose Python originals can raise are embedded in Except.

/-- A Python exception relevant to the embedded code paths. -/
inductive PyErr where
  | keyError (k : String)
  | binasciiError (msg : String)
  | unicodeDecodeError
  | attributeError (msg : String)
deriving Repr, DecidableEq

/-- Lookup in a Python dict keyed by strings (association list kept in
insertion order, keys unique by construction): d.get(k). -/
def dictGet? {V : Type} : List (String × V) → String → Option V
  | [], _ => none
  | (k0, v) :: t, k => if k0 = k then some v else dictGet? t k

/-- Python dict assignment d[k] = v: overwrite in place when the key
exists (insertion order is preserved), otherwise append. -/
def dictSet {V : Type} : List (String × V) → String → V → List (String × V)
  | [], k, v => [(k, v)]
  | (k0, v0) :: t, k, v => if k0 = k then (k, v) :: t else (k0, v0) :: dictSet t k v

/-- Python del d[k] restricted to the guarded call sites of the sources,
where the key has already been checked present: removes the binding. -/
def dictDel {V : Type} (l : List (String × V)) (k : String) : List (String × V) :=
  l.filter (fun p => p.1 != k)

/-- Raw Python dict subscription d[k]: raises KeyError when the key is
absent, used to make the exception potential of subscription explicit. -/
def dictIndexE {V : Type} (l : List (String × V)) (k : String) : Except PyErr V :=
  match dictGet? l k with
  | some v => .ok v
  | none => .error (.keyError k)

/-- The value stored against a key by ExpiringDict.__setitem__ in both
copies of the class (utils.py and session_exp_auth.py): a dict holding
the caller value and a creation timestamp.  created_at is Option because
__getitem__ and _is_valid defend against an entry that lacks it. -/
structure Entry (V : Type) where
  value : V
  created_at : Option Int
deriving Repr, DecidableEq

/-- The ExpiringDict state: a TTL (seconds, from SESSION_DURATION, may
be zero or negative) and the backing dict. -/
structure ExpiringDict (V : Type) where
  expiration_time : Int
  data : List (String × Entry V)
deriving Repr, DecidableEq

namespace ExpiringDict

/-- ExpiringDict._is_valid (identical in utils.py and
session_exp_auth.py): true when the TTL is non-positive; otherwise the
key must be present, carry a created_at, and satisfy
created_at + expiration_time >= now. -/
def is_valid {V : Type} (d : ExpiringDict V) (key : String) (now : Int) : Bool :=
  if d.expiration_time ≤ 0 then true
  else
    match dictGet? d.data key with
    | none => false
    | some e =>
      match e.created_at with
      | none => false
      | some t => decide (t + d.expiration_time ≥ now)

/-- ExpiringDict._expire_key / expire_key: delete the key if present
(no-op when absent). -/
def expire_key {V : Type} (d : ExpiringDict V) (key : String) : ExpiringDict V :=
  { d with data := dictDel d.data key }

/-- ExpiringDict.__setitem__: store the value wrapped with the current
timestamp, overwriting any previous entry. -/
def setItem {V : Type} (d : ExpiringDict V) (key : String) (v : V) (now : Int) : ExpiringDict V :=
  { d with data := dictSet d.data key ⟨v, some now⟩ }

/-- ExpiringDict.__contains__ (identical in both copies): membership in
the backing dict only; expiration is not consulted. -/
def containsKey {V : Type} (d : ExpiringDict V) (key : String) : Bool :=
  (dictGet? d.data key).isSome

/-- ExpiringDict.__getitem__ as written in
api/v1/auth/session_exp_auth.py: absent key yields None; an entry
without created_at yields None without eviction; an invalid (expired)
entry is evicted and yields None; otherwise the stored value is
returned.  Result: the returned Python value and the post-state. -/
def getItemExp {V : Type} (d : ExpiringDict V) (key : String) (now : Int) :
    Option V × ExpiringDict V :=
  match dictGet? d.data key with
  | none => (none, d)
  | some e =>
    match e.created_at with
    | none => (none, d)
    | some _ =>
      if d.is_valid key now then (some e.value, d)
      else (none, d.expire_key key)

/-- ExpiringDict.__getitem__ as written in utils.py: same as the
session_exp_auth.py copy except that an entry lacking created_at is
evicted before returning None. -/
def getItemUtils {V : Type} (d : ExpiringDict V) (key : String) (now : Int) :
    Option V × ExpiringDict V :=
  match dictGet? d.data key with
  | none => (none, d)
  | some e =>
    match e.created_at with
    | none => (none, d.expire_key key)
    | some _ =>
      if d.is_valid key now then (some e.value, d)
      else (none, d.expire_key key)

/-- ExpiringDict.get (utils.py): delegate to __getitem__ when the key is
in the backing dict, otherwise return the supplied default. -/
def getU {V : Type} (d : ExpiringDict V) (key : String) (dflt : Option V) (now : Int) :
    Option V × ExpiringDict V :=
  if (dictGet? d.data key).isSome then d.getItemUtils key now else (dflt, d)

/-- The session_exp_auth.py __getitem__ with the raw dict subscription
self._data[key] embedded as a KeyError-raising operation, so that
exception freedom is a theorem rather than a modelling artifact. -/
def getItemExpE {V : Type} (d : ExpiringDict V) (key : String) (now : Int) :
    Except PyErr (Option V × ExpiringDict V) :=
  if (dictGet? d.data key).isSome then
    match dictIndexE d.data key with
    | .error e => .error e
    | .ok entry =>
      match entry.created_at with
      | none => .ok (none, d)
      | some _ =>
        if d.is_valid key now then .ok (some entry.value, d)
        else .ok (none, d.expire_key key)
  else .ok (none, d)

/-- The utils.py __getitem__ with the raw dict subscription embedded as
a KeyError-raising operation. -/
def getItemUtilsE {V : Type} (d : ExpiringDict V) (key : String) (now : Int) :
    Except PyErr (Option V × ExpiringDict V) :=
  if (dictGet? d.data key).isSome then
    match dictIndexE d.data key with
    | .error e => .error e
    | .ok entry =>
      match entry.created_at with
      | none => .ok (none, d.expire_key key)
      | some _ =>
        if d.is_valid key now then .ok (some entry.value, d)
        else .ok (none, d.expire_key key)
  else .ok (none, d)

/-- The utils.py get with its __getitem__ delegation embedded in the
exception monad. -/
def getE {V : Type} (d : ExpiringDict V) (key : String) (dflt : Option V) (now : Int) :
    Except PyErr (Option V × ExpiringDict V) :=
  if (dictGet? d.data key).isSome then d.getItemUtilsE key now else .ok (dflt, d)

end ExpiringDict

/-- An incoming HTTP request as seen by the authenticators: the
Authorization header value and the value of the session cookie named by
SESSION_NAME (each absent when the header or cookie is missing). -/
structure Request where
  authorization : Option String
  session_cookie_value : Option String
deriving Repr, DecidableEq

/-- SessionAuth state: the class-level user_id_by_session_id dict
mapping session ids to user ids. -/
structure SessionAuthState where
  user_id_by_session_id : List (String × String)
deriving Repr, DecidableEq

namespace SessionAuth

/-- SessionAuth.create_session: None (or a non-string, out of this
model) user_id is rejected; any string, including the empty string,
gets a fresh uuid4 session id (supplied here as the oracle argument
new_sid) mapped to it. -/
def create_session (st : SessionAuthState) (user_id : Option String) (new_sid : String) :
    Option String × SessionAuthState :=
  match user_id with
  | none => (none, st)
  | some uid =>
    (some new_sid, { st with user_id_by_session_id := dictSet st.user_id_by_session_id new_sid uid })

/-- SessionAuth.user_id_for_session_id: None or empty (falsy) session
ids yield None, otherwise the dict is consulted. -/
def user_id_for_session_id (st : SessionAuthState) (session_id : Option String) :
    Option String :=
  match session_id with
  | none => none
  | some sid =>
    if sid = "" then none
    else dictGet? st.user_id_by_session_id sid

/-- SessionAuth.destroy_session: requires a request, a truthy session
cookie and a truthy resolved user id; then deletes the mapping (the del
is guarded by the successful lookup, so it cannot raise). -/
def destroy_session (st : SessionAuthState) (req : Option Request) :
    Bool × SessionAuthState :=
  match req with
  | none => (false, st)
  | some r =>
    match r.session_cookie_value with
    | none => (false, st)
    | some sid =>
      if sid = "" then (false, st)
      else
        match user_id_for_session_id st (some sid) with
        | none => (false, st)
        | some uid =>
          if uid = "" then (false, st)
          else
            (true, { st with user_id_by_session_id := dictDel st.user_id_by_session_id sid })

end SessionAuth

/-- The dict stored by SessionExpAuth.create_session as the ExpiringDict
value: user_id plus the creation instant recorded inside the value. -/
structure SessionRecord where
  user_id : String
  created_at : Int
deriving Repr, DecidableEq

/-- SessionExpAuth state: session_duration read from SESSION_DURATION
and the ExpiringDict replacing the plain session dict. -/
structure SessionExpAuthState where
  session_duration : Int
  store : ExpiringDict SessionRecord
deriving Repr, DecidableEq

/-- Python space characters accepted by int() around the literal. -/
def pyStrSpace (c : Char) : Bool :=
  c = ' ' || c = '\t' || c = '\n' || c = '\r' || c = Char.ofNat 11 || c = Char.ofNat 12

/-- Digit run of a Python int literal after its first digit: digits with
single underscores allowed strictly between digits. -/
def pyDigits (acc : Nat) (l : List Char) : Option Nat :=
  match l with
  | [] => some acc
  | c :: cs =>
    if c.isDigit then pyDigits (10 * acc + (c.toNat - 48)) cs
    else if c = '_' then
      match cs with
      | d :: cs2 => if d.isDigit then pyDigits (10 * acc + (d.toNat - 48)) cs2 else none
      | [] => none
    else none

/-- Nonempty digit run of a Python int literal. -/
def pyIntDigits (l : List Char) : Option Nat :=
  match l with
  | [] => none
  | c :: cs => if c.isDigit then pyDigits (c.toNat - 48) cs else none

/-- Python int(str) for ASCII input: strip whitespace, one optional
sign, then a nonempty underscore-separated digit run; None models the
ValueError raised otherwise. -/
def pyIntOfString (s : String) : Option Int :=
  let cs := ((s.toList.dropWhile pyStrSpace).reverse.dropWhile pyStrSpace).reverse
  match cs with
  | '+' :: rest => (pyIntDigits rest).map (fun n => (n : Int))
  | '-' :: rest => (pyIntDigits rest).map (fun n => -(n : Int))
  | rest => (pyIntDigits rest).map (fun n => (n : Int))

/-- SessionExpAuth.__init__ duration computation: int(getenv(
"SESSION_DURATION", 0)) with ValueError mapped to 0; an unset variable
yields the integer default 0 directly. -/
def sessionDurationInit (env : Option String) : Int :=
  match env with
  | none => 0
  | some s => (pyIntOfString s).getD 0

namespace SessionExpAuth

/-- SessionExpAuth.__init__: session_duration from the environment and a
fresh ExpiringDict with that TTL. -/
def init (env : Option String) : SessionExpAuthState :=
  { session_duration := sessionDurationInit env
  , store := { expiration_time := sessionDurationInit env, data := [] } }

/-- SessionExpAuth.create_session: the inherited guard rejects a None
(or non-string) user_id; the raw user-id value written by the super call
is immediately overwritten by the record write below, so the embedding
stores the record directly.  new_sid is the uuid4 oracle; a falsy
(empty) generated id would be rejected by the `if not session_id`
check. -/
def create_session (st : SessionExpAuthState) (user_id : Option String)
    (new_sid : String) (now : Int) : Option String × SessionExpAuthState :=
  match user_id with
  | none => (none, st)
  | some uid =>
    if new_sid = "" then (none, st)
    else
      (some new_sid,
        { st with store := st.store.setItem new_sid ⟨uid, now⟩ now })

/-- SessionExpAuth.user_id_for_session_id: only None is rejected up
front; the ExpiringDict lookup may evict an expired entry as a side
effect; the returned session dict is non-empty hence truthy, so its
user_id is returned whenever the lookup produced a value. -/
def user_id_for_session_id (st : SessionExpAuthState) (session_id : Option String)
    (now : Int) : Option String × SessionExpAuthState :=
  match session_id with
  | none => (none, st)
  | some sid =>
    let res := ExpiringDict.getItemExp st.store sid now
    match res.1 with
    | none => (none, { st with store := res.2 })
    | some r => (some r.user_id, { st with store := res.2 })

/-- destroy_session as inherited from SessionAuth but dispatching to the
expiration-aware resolver and the ExpiringDict __delitem__ (guarded by
the successful lookup, so it cannot raise). -/
def destroy_session (st : SessionExpAuthState) (req : Option Request) (now : Int) :
    Bool × SessionExpAuthState :=
  match req with
  | none => (false, st)
  | some r =>
    match r.session_cookie_value with
    | none => (false, st)
    | some sid =>
      if sid = "" then (false, st)
      else
        let res := user_id_for_session_id st (some sid) now
        match res.1 with
        | none => (false, res.2)
        | some uid =>
          if uid = "" then (false, res.2)
          else
            (true, { res.2 with store := { res.2.store with
                        data := dictDel res.2.store.data sid } })

end SessionExpAuth

/-- A persisted UserSession object: the Base-assigned object id, the
attributes set by UserSession.__init__, and the Base created_at
timestamp. -/
structure UserSessionRec where
  id : String
  user_id : Option String
  session_id : Option String
  created_at : Int
deriving Repr, DecidableEq

/-- Base.save via _storage[self.id] = self: overwrite in place when an
object with the id exists (dict insertion order preserved), else
append. -/
def upsertById : List UserSessionRec → UserSessionRec → List UserSessionRec
  | [], r => [r]
  | x :: xs, r => if x.id = r.id then r :: xs else x :: upsertById xs r

/-- UserSession.search filtered by a session_id attribute value, result
in storage (insertion) order; Query.first() is the head. -/
def userSessionSearch (storage : List UserSessionRec) (sid : Option String) :
    List UserSessionRec :=
  storage.filter (fun r => r.session_id == sid)

/-- Base.remove: delete the object with this id from _storage. -/
def removeById (storage : List UserSessionRec) (rid : String) : List UserSessionRec :=
  storage.filter (fun r => r.id != rid)

namespace SessionDBAuth

/-- SessionDBAuth.create_session: no validation at all; a UserSession
with the oracle uuid4 session id and a fresh object id is saved and the
session id returned, whatever user_id is. -/
def create_session (storage : List UserSessionRec) (user_id : Option String)
    (new_sid : String) (new_rec_id : String) (now : Int) :
    Option String × List UserSessionRec :=
  (some new_sid, upsertById storage ⟨new_rec_id, user_id, some new_sid, now⟩)

/-- SessionDBAuth.user_id_for_session_id: search by session_id.  The
source's guard if not sessions is dead code, because UserSession.search
returns a Query object and Query defines neither __bool__ nor __len__,
so it is always truthy: on an empty search result, sessions.first() is
None and the subsequent .created_at access raises AttributeError.  When
the first hit is past created_at + session_duration and the duration is
positive, the record is removed and None returned, otherwise its user_id
attribute (itself possibly None). -/
def user_id_for_session_id (storage : List UserSessionRec) (session_id : Option String)
    (session_duration : Int) (now : Int) :
    Except PyErr (Option String × List UserSessionRec) :=
  match userSessionSearch storage session_id with
  | [] => .error (.attributeError "NoneType object has no attribute created_at")
  | s :: _ =>
    if now > s.created_at + session_duration ∧ session_duration > 0 then
      .ok (none, removeById storage s.id)
    else .ok (s.user_id, storage)

/-- SessionDBAuth.destroy_session: the cookie (None when the request is
missing) is searched.  The guard if not sessions is dead code for the
same reason as in user_id_for_session_id (a Query is always truthy), so
with no matching record sessions.first() is None and the .remove() call
raises AttributeError; a hit removes the first matching record and
returns True. -/
def destroy_session (storage : List UserSessionRec) (req : Option Request) :
    Except PyErr (Bool × List UserSessionRec) :=
  let sid : Option String :=
    match req with
    | none => none
    | some r => r.session_cookie_value
  match userSessionSearch storage sid with
  | [] => .error (.attributeError "NoneType object has no attribute remove")
  | s :: _ => .ok (true, removeById storage s.id)

end SessionDBAuth

/-- What remains of the path may look like after the last literal piece
of an excluded pattern: the regex tail "/?$" accepts an optional slash,
and the dollar anchor also matches just before one trailing newline. -/
def tailOk : List Char → Bool
  | [] => true
  | ['/'] => true
  | ['\n'] => true
  | ['/', '\n'] => true
  | _ => false

/-- The dot-star gap of the compiled pattern: try the continuation at
the current position and at every later position reachable through
characters other than newline (the regex dot excludes newline). -/
def starSeek (f : List Char → Bool) : List Char → Bool
  | [] => f []
  | c :: s => f (c :: s) || (decide (c ≠ '\n') && starSeek f s)

/-- Matcher for re.match over re.escape(pattern).replace of the escaped
star by dot-star, with "/?$" appended, applied from the start of the
path: every pattern character is literal except the star, which matches
any run of characters other than newline. -/
def reMatchChars : List Char → List Char → Bool
  | [], s => tailOk s
  | p :: ps2, s =>
    if p = '*' then starSeek (fun s2 => reMatchChars ps2 s2) s
    else
      match s with
      | [] => false
      | c :: s2 => decide (p = c) && reMatchChars ps2 s2

/-- Path normalization performed by Auth.require_auth: ensure one
trailing slash. -/
def normalizePathL (l : List Char) : List Char :=
  if l.getLast? = some '/' then l else l ++ ['/']

/-- Auth.require_auth: a falsy path or excluded list requires auth; the
normalized path is matched against every excluded pattern and a match
means auth is not required. -/
def require_auth (path : Option String) (excluded_paths : List String) : Bool :=
  match path with
  | none => true
  | some p =>
    if p = "" || excluded_paths.isEmpty then true
    else
      let normalized := normalizePathL p.toList
      !(excluded_paths.any (fun pat => reMatchChars pat.toList normalized))

/-- The base64 alphabet value of a character as in binascii's decoding
table; padding and foreign characters map to none. -/
def b64digit? (c : Char) : Option Nat :=
  if 'A' ≤ c ∧ c ≤ 'Z' then some (c.toNat - 65)
  else if 'a' ≤ c ∧ c ≤ 'z' then some (c.toNat - 97 + 26)
  else if '0' ≤ c ∧ c ≤ '9' then some (c.toNat - 48 + 52)
  else if c = '+' then some 62
  else if c = '/' then some 63
  else none

/-- binascii.a2b_base64 in non-strict mode (the base64.b64decode
default): characters are folded into 6-bit groups four at a time with
bytes emitted eagerly; a completed pad sequence ends decoding
successfully; foreign characters are skipped; at end of input a single
leftover data character raises the data-character error and two or three
leftovers raise Incorrect padding. -/
def a2b_base64 (l : List Char) (quadPos : Nat) (leftchar : Nat) (pads : Nat)
    (out : List Nat) : Except PyErr (List Nat) :=
  match l with
  | [] =>
    if quadPos = 0 then .ok out
    else if quadPos = 1 then
      .error (.binasciiError "Invalid base64-encoded string: number of data characters cannot be 1 more than a multiple of 4")
    else .error (.binasciiError "Incorrect padding")
  | c :: cs =>
    if c = '=' then
      if 2 ≤ quadPos ∧ 4 ≤ quadPos + (pads + 1) then .ok out
      else a2b_base64 cs quadPos leftchar (if 2 ≤ quadPos then pads + 1 else pads) out
    else
      match b64digit? c with
      | none => a2b_base64 cs quadPos leftchar pads out
      | some d =>
        if quadPos = 0 then a2b_base64 cs 1 d 0 out
        else if quadPos = 1 then a2b_base64 cs 2 (d % 16) 0 (out ++ [leftchar * 4 + d / 16])
        else if quadPos = 2 then a2b_base64 cs 3 (d % 4) 0 (out ++ [leftchar * 16 + d / 4])
        else a2b_base64 cs 0 0 0 (out ++ [leftchar * 64 + d])

/-- base64.b64decode on a text argument (already known ASCII here). -/
def b64decodePy (s : List Char) : Except PyErr (List Nat) :=
  a2b_base64 s 0 0 0 []

/-- A UTF-8 continuation byte. -/
def contByte (b : Nat) : Bool := 128 ≤ b && b < 192

/-- Strict UTF-8 decoding of a byte list to code points, rejecting
overlong forms, surrogates and out-of-range values, as
bytes.decode("utf-8") does; none models UnicodeDecodeError. -/
def utf8Decode (l : List Nat) : Option (List Char) :=
  match l with
  | [] => some []
  | b :: bs =>
    if b < 128 then (utf8Decode bs).map (fun cs => Char.ofNat b :: cs)
    else if b < 194 then none
    else if b < 224 then
      match bs with
      | b2 :: rest =>
        if contByte b2 then
          (utf8Decode rest).map (fun cs => Char.ofNat ((b - 192) * 64 + (b2 - 128)) :: cs)
        else none
      | [] => none
    else if b < 240 then
      match bs with
      | b2 :: b3 :: rest =>
        if contByte b2 && contByte b3 then
          let cp := (b - 224) * 4096 + (b2 - 128) * 64 + (b3 - 128)
          if 2048 ≤ cp && !(55296 ≤ cp && cp ≤ 57343) then
            (utf8Decode rest).map (fun cs => Char.ofNat cp :: cs)
          else none
        else none
      | _ => none
    else if b < 245 then
      match bs with
      | b2 :: b3 :: b4 :: rest =>
        if contByte b2 && contByte b3 && contByte b4 then
          let cp := (b - 240) * 262144 + (b2 - 128) * 4096 + (b3 - 128) * 64 + (b4 - 128)
          if 65536 ≤ cp && cp ≤ 1114111 then
            (utf8Decode rest).map (fun cs => Char.ofNat cp :: cs)
          else none
        else none
      | _ => none
    else none

/-- Membership of a character in the class [A-Za-z0-9+/=] used by
BasicAuth.extract_base64_authorization_header. -/
def b64alphabetChar (c : Char) : Bool :=
  ('A' ≤ c && c ≤ 'Z') || ('a' ≤ c && c ≤ 'z') || ('0' ≤ c && c ≤ '9')
    || c = '+' || c = '/' || c = '='

namespace BasicAuth

/-- BasicAuth.extract_base64_authorization_header: a non-string (None)
yields None; otherwise the header must match Basic followed by one space
and a nonempty [A-Za-z0-9+/=] run reaching the end of the string (the
dollar anchor also tolerates one trailing newline). -/
def extract_base64_authorization_header (h : Option String) : Option String :=
  match h with
  | none => none
  | some s =>
    let cs := s.toList
    if cs.take 6 = "Basic ".toList then
      let rest := cs.drop 6
      let core := if rest.getLast? = some '\n' then rest.dropLast else rest
      if core ≠ [] ∧ core.all b64alphabetChar then some (String.mk core) else none
    else none

/-- BasicAuth.decode_base64_authorization_header: b64decode then
utf-8 decode; only UnicodeDecodeError is caught and turned into None,
the binascii.Error of a malformed base64 payload propagates. -/
def decode_base64_authorization_header (h : Option String) :
    Except PyErr (Option String) :=
  match h with
  | none => .ok none
  | some s =>
    match b64decodePy s.toList with
    | .error e => .error e
    | .ok bytes =>
      match utf8Decode bytes with
      | none => .ok none
      | some cs => .ok (some (String.mk cs))

/-- BasicAuth.extract_user_credentials: the regex wants a nonempty run
without a colon, a colon, then a newline-free remainder reaching the end
(the dollar anchor tolerates one trailing newline); otherwise the pair
of Nones. -/
def extract_user_credentials (s : Option String) : Option String × Option String :=
  match s with
  | none => (none, none)
  | some str =>
    let cs := str.toList
    let uname := cs.takeWhile (fun c => c ≠ ':')
    match cs.drop uname.length with
    | ':' :: pw =>
      if uname = [] then (none, none)
      else
        let core := if pw.getLast? = some '\n' then pw.dropLast else pw
        if core.all (fun c => c ≠ '\n') then (some (String.mk uname), some (String.mk core))
        else (none, none)
    | _ => (none, none)

end BasicAuth

/-- A stored User as far as BasicAuth consults it: its email attribute
and its _password (None when no password was ever set). -/
structure UserRec where
  id : String
  email : Option String
  password_hash : Option String
deriving Repr, DecidableEq

/-- User.is_valid_password: a non-string or falsy candidate or a falsy
stored hash fails, otherwise the candidate is hashed (hash function
passed explicitly: _encrypt_password is SHA-256, opaque to this model)
and compared. -/
def isValidPassword (hash : String → String) (u : UserRec) (pwd : Option String) : Bool :=
  match pwd, u.password_hash with
  | some p, some stored =>
    if p = "" || stored = "" then false else decide (hash p = stored)
  | _, _ => false

/-- User.search restricted to the email attribute filter used by
BasicAuth.user_object_from_credentials. -/
def userSearch (db : List UserRec) (email : Option String) : List UserRec :=
  db.filter (fun u => u.email == email)

namespace BasicAuth

/-- BasicAuth.user_object_from_credentials: both arguments must be
strings; the first user with the email is taken and its password
checked. -/
def user_object_from_credentials (hash : String → String) (db : List UserRec)
    (email pwd : Option String) : Option UserRec :=
  match email, pwd with
  | some e, some p =>
    match userSearch db (some e) with
    | [] => none
    | u :: _ => if isValidPassword hash u (some p) then some u else none
  | _, _ => none

/-- BasicAuth.current_user: the full pipeline over the Authorization
header.  Every falsy intermediate result short-circuits to ok-None; the
uncaught binascii.Error of the decode step is the only exception that
can escape. -/
def current_user (hash : String → String) (db : List UserRec) (req : Option Request) :
    Except PyErr (Option UserRec) :=
  match req with
  | none => .ok none
  | some r =>
    match r.authorization with
    | none => .ok none
    | some h =>
      if h = "" then .ok none
      else
        match extract_base64_authorization_header (some h) with
        | none => .ok none
        | some b64 =>
          if b64 = "" then .ok none
          else
            match decode_base64_authorization_header (some b64) with
            | .error e => .error e
            | .ok none => .ok none
            | .ok (some decoded) =>
              if decoded = "" then .ok none
              else
                match extract_user_credentials (some decoded) with
                | (some em, some pw) =>
                  .ok (user_object_from_credentials hash db (some em) (some pw))
                | _ => .ok none

end BasicAuth

/-- The top-level names defined by api/v1/auth/auth_factory.py. -/
def authFactoryDefinedNames : List String :=
  ["AuthFactory", "BasicAuthFactory", "SessionAuthFactory", "SessionExpAuthFactory"]

/-- The names api/v1/auth/auth_factory_provider.py imports from
api/v1/auth/auth_factory at module load. -/
def providerImportedNames : List String :=
  ["BasicAuthFactory", "SessionAuthFactory", "SessionExpAuthFactory",
   "SessionDBAuthFactory", "AuthFactory"]

/-- Python import resolution for the provider module: importing a name
the source module does not define raises ImportError before any
provider code runs. -/
def importProvider : Except String Unit :=
  match providerImportedNames.filter (fun n => !(authFactoryDefinedNames.contains n)) with
  | [] => .ok ()
  | n :: _ => .error ("ImportError: cannot import name " ++ n)

theorem dictGet?_dictSet_self {V : Type} (l : List (String × V)) (k : String) (v : V) :
    dictGet? (dictSet l k v) k = some v := by
  induction l with
  | nil => simp [dictSet, dictGet?]
  | cons h t ih =>
    obtain ⟨k0, v0⟩ := h
    by_cases hk : k0 = k
    · simp [dictSet, hk, dictGet?]
    · simp [dictSet, hk, dictGet?, ih]

theorem dictGet?_dictDel_self {V : Type} (l : List (String × V)) (k : String) :
    dictGet? (dictDel l k) k = none := by
  induction l with
  | nil => simp [dictDel, dictGet?]
  | cons h t ih =>
    obtain ⟨k0, v0⟩ := h
    by_cases hk : k0 = k
    · simpa [dictDel, hk, dictGet?] using ih
    · simpa [dictDel, hk, dictGet?] using ih

namespace ExpiringDict

theorem is_valid_nonpos {V : Type} (d : ExpiringDict V) (k : String) (now : Int)
    (h : d.expiration_time ≤ 0) : d.is_valid k now = true := by
  unfold is_valid
  simp [h]

theorem getItemExp_absent {V : Type} {d : ExpiringDict V} {k : String} (now : Int)
    (hg : dictGet? d.data k = none) : getItemExp d k now = (none, d) := by
  unfold getItemExp
  simp [hg]

theorem getItemExp_noCreated {V : Type} {d : ExpiringDict V} {k : String} {e : Entry V}
    (now : Int) (hg : dictGet? d.data k = some e) (hc : e.created_at = none) :
    getItemExp d k now = (none, d) := by
  unfold getItemExp
  simp [hg, hc]

theorem getItemExp_valid {V : Type} {d : ExpiringDict V} {k : String} {e : Entry V} {t : Int}
    {now : Int} (hg : dictGet? d.data k = some e) (hc : e.created_at = some t)
    (hv : d.is_valid k now = true) : getItemExp d k now = (some e.value, d) := by
  unfold getItemExp
  simp [hg, hc, hv]

theorem getItemExp_expired {V : Type} {d : ExpiringDict V} {k : String} {e : Entry V} {t : Int}
    {now : Int} (hg : dictGet? d.data k = some e) (hc : e.created_at = some t)
    (hv : d.is_valid k now = false) : getItemExp d k now = (none, d.expire_key k) := by
  unfold getItemExp
  simp [hg, hc, hv]

theorem containsKey_expire_key_self {V : Type} (d : ExpiringDict V) (k : String) :
    (d.expire_key k).containsKey k = false := by
  unfold containsKey expire_key
  simp [dictGet?_dictDel_self]

theorem getItemUtils_absent {V : Type} {d : ExpiringDict V} {k : String} (now : Int)
    (hg : dictGet? d.data k = none) : getItemUtils d k now = (none, d) := by
  unfold getItemUtils
  simp [hg]

theorem getItemUtils_noCreated {V : Type} {d : ExpiringDict V} {k : String} {e : Entry V}
    (now : Int) (hg : dictGet? d.data k = some e) (hc : e.created_at = none) :
    getItemUtils d k now = (none, d.expire_key k) := by
  unfold getItemUtils
  simp [hg, hc]

theorem getItemUtils_expired {V : Type} {d : ExpiringDict V} {k : String} {e : Entry V} {t : Int}
    {now : Int} (hg : dictGet? d.data k = some e) (hc : e.created_at = some t)
    (hv : d.is_valid k now = false) : getItemUtils d k now = (none, d.expire_key k) := by
  unfold getItemUtils
  simp [hg, hc, hv]

theorem getU_absent {V : Type} {d : ExpiringDict V} {k : String} (dflt : Option V) (now : Int)
    (hg : dictGet? d.data k = none) : getU d k dflt now = (dflt, d) := by
  unfold getU
  simp [hg]

theorem getItemExp_snd_nonpos {V : Type} (d : ExpiringDict V) (k : String) (now : Int)
    (h : d.expiration_time ≤ 0) : (getItemExp d k now).2 = d := by
  cases hg : dictGet? d.data k with
  | none => rw [getItemExp_absent now hg]
  | some e =>
    cases hc : e.created_at with
    | none => rw [getItemExp_noCreated now hg hc]
    | some t => rw [getItemExp_valid hg hc (is_valid_nonpos d k now h)]

theorem getItemExpE_agrees {V : Type} (d : ExpiringDict V) (k : String) (now : Int) :
    getItemExpE d k now = Except.ok (getItemExp d k now) := by
  unfold getItemExpE getItemExp
  cases hg : dictGet? d.data k with
  | none => simp [hg]
  | some e =>
    have hidx : dictIndexE d.data k = Except.ok e := by
      unfold dictIndexE
      simp [hg]
    cases hc : e.created_at with
    | none => simp [hg, hidx, hc]
    | some t =>
      by_cases hv : d.is_valid k now
      · simp [hg, hidx, hc, hv]
      · simp [hg, hidx, hc, hv]

theorem getItemUtilsE_agrees {V : Type} (d : ExpiringDict V) (k : String) (now : Int) :
    getItemUtilsE d k now = Except.ok (getItemUtils d k now) := by
  unfold getItemUtilsE getItemUtils
  cases hg : dictGet? d.data k with
  | none => simp [hg]
  | some e =>
    have hidx : dictIndexE d.data k = Except.ok e := by
      unfold dictIndexE
      simp [hg]
    cases hc : e.created_at with
    | none => simp [hg, hidx, hc]
    | some t =>
      by_cases hv : d.is_valid k now
      · simp [hg, hidx, hc, hv]
      · simp [hg, hidx, hc, hv]

theorem getE_agrees {V : Type} (d : ExpiringDict V) (k : String) (dflt : Option V) (now : Int) :
    getE d k dflt now = Except.ok (getU d k dflt now) := by
  unfold getE getU
  by_cases hm : (dictGet? d.data k).isSome
  · simp [hm, getItemUtilsE_agrees]
  · simp [hm]

end ExpiringDict

theorem mem_upsertById_self (storage : List UserSessionRec) (r : UserSessionRec) :
    r ∈ upsertById storage r := by
  induction storage with
  | nil => simp [upsertById]
  | cons x xs ih =>
    by_cases hx : x.id = r.id
    · simp [upsertById, hx]
    · simp [upsertById, hx]
      right
      exact ih

theorem userSessionSearch_nil (sid? : Option String) : userSessionSearch [] sid? = [] := rfl

theorem userSessionSearch_cons (x : UserSessionRec) (xs : List UserSessionRec)
    (sid? : Option String) :
    userSessionSearch (x :: xs) sid? =
      if x.session_id == sid? then x :: userSessionSearch xs sid?
      else userSessionSearch xs sid? := by
  unfold userSessionSearch
  rw [List.filter_cons]

theorem userSessionSearch_nil_of (storage : List UserSessionRec) (sid? : Option String)
    (h : ∀ r ∈ storage, r.session_id ≠ sid?) : userSessionSearch storage sid? = [] := by
  unfold userSessionSearch
  rw [List.filter_eq_nil_iff]
  intro r hr
  simpa using h r hr

theorem userSessionSearch_upsert_fresh (storage : List UserSessionRec) (r : UserSessionRec)
    (sid : String) (hfresh : ∀ x ∈ storage, x.session_id ≠ some sid)
    (hr : r.session_id = some sid) :
    userSessionSearch (upsertById storage r) (some sid) = [r] := by
  induction storage with
  | nil =>
    show userSessionSearch [r] (some sid) = [r]
    rw [userSessionSearch_cons]
    simp [hr, userSessionSearch_nil]
  | cons x xs ih =>
    have hx : x.session_id ≠ some sid := hfresh x (by simp)
    have hxs : ∀ y ∈ xs, y.session_id ≠ some sid := fun y hy => hfresh y (by simp [hy])
    by_cases hid : x.id = r.id
    · show userSessionSearch (if x.id = r.id then r :: xs else x :: upsertById xs r) (some sid) = [r]
      rw [if_pos hid, userSessionSearch_cons]
      simp [hr, userSessionSearch_nil_of xs (some sid) hxs]
    · show userSessionSearch (if x.id = r.id then r :: xs else x :: upsertById xs r) (some sid) = [r]
      rw [if_neg hid, userSessionSearch_cons]
      have hxb : (x.session_id == some sid) = false := by simpa using hx
      rw [hxb]
      simp only [Bool.false_eq_true, if_false]
      exact ih hxs

theorem sessionAuth_resolve_eq (st : SessionAuthState) (sid : String) (h : sid ≠ "") :
    SessionAuth.user_id_for_session_id st (some sid) =
      dictGet? st.user_id_by_session_id sid := by
  simp [SessionAuth.user_id_for_session_id, h]

theorem sessionExpAuth_resolve_eq (st : SessionExpAuthState) (sid : String) (now : Int) :
    SessionExpAuth.user_id_for_session_id st (some sid) now =
      ((ExpiringDict.getItemExp st.store sid now).1.map SessionRecord.user_id,
        { st with store := (ExpiringDict.getItemExp st.store sid now).2 }) := by
  cases hres : ExpiringDict.getItemExp st.store sid now with
  | mk v d2 =>
    cases v with
    | none => simp [SessionExpAuth.user_id_for_session_id, hres]
    | some r => simp [SessionExpAuth.user_id_for_session_id, hres]

theorem sessionAuth_destroy_eq (st : SessionAuthState) (sid : String) (h : sid ≠ "") :
    SessionAuth.destroy_session st (some ⟨none, some sid⟩) =
      match SessionAuth.user_id_for_session_id st (some sid) with
      | none => (false, st)
      | some uid =>
        if uid = "" then (false, st)
        else (true, { st with user_id_by_session_id := dictDel st.user_id_by_session_id sid }) := by
  cases hres : SessionAuth.user_id_for_session_id st (some sid) with
  | none => simp [SessionAuth.destroy_session, h, hres]
  | some uid =>
    by_cases hu : uid = ""
    · simp [SessionAuth.destroy_session, h, hres, hu]
    · simp [SessionAuth.destroy_session, h, hres, hu]

theorem sessionExpAuth_destroy_eq (st : SessionExpAuthState) (sid : String) (now : Int)
    (h : sid ≠ "") :
    SessionExpAuth.destroy_session st (some ⟨none, some sid⟩) now =
      match SessionExpAuth.user_id_for_session_id st (some sid) now with
      | (none, st2) => (false, st2)
      | (some uid, st2) =>
        if uid = "" then (false, st2)
        else (true, { st2 with store := { st2.store with data := dictDel st2.store.data sid } }) := by
  cases hres : SessionExpAuth.user_id_for_session_id st (some sid) now with
  | mk v st2 =>
    cases v with
    | none => simp [SessionExpAuth.destroy_session, h, hres]
    | some uid =>
      by_cases hu : uid = ""
      · simp [SessionExpAuth.destroy_session, h, hres, hu]
      · simp [SessionExpAuth.destroy_session, h, hres, hu]

theorem sessionExpAuth_resolve_absent (st : SessionExpAuthState) (sid : String) (t : Int)
    (hg : dictGet? st.store.data sid = none) :
    (SessionExpAuth.user_id_for_session_id st (some sid) t).1 = none := by
  rw [sessionExpAuth_resolve_eq st sid t, ExpiringDict.getItemExp_absent t hg]
  rfl

theorem is_valid_setItem_now {V : Type} (d : ExpiringDict V) (k : String) (v : V) (now : Int) :
    (d.setItem k v now).is_valid k now = true := by
  unfold ExpiringDict.is_valid
  by_cases hle : (d.setItem k v now).expiration_time ≤ 0
  · rw [if_pos hle]
  · rw [if_neg hle]
    have hget : dictGet? (d.setItem k v now).data k = some { value := v, created_at := some now } :=
      dictGet?_dictSet_self d.data k _
    rw [hget]
    have hge : now + (d.setItem k v now).expiration_time ≥ now := by
      show now + d.expiration_time ≥ now
      have : ¬ (d.expiration_time ≤ 0) := hle
      omega
    simp [hge]

/-- Claim C1: the spec says a missing or malformed Authorization header
can never surface an exception, but BasicAuth.current_user on the header
Basic a (a regex-accepted but length-invalid base64 payload) propagates
the binascii.Error that base64.b64decode raises, because
decode_base64_authorization_header catches only UnicodeDecodeError.
The theorem evaluates the embedded pipeline at that failing request for
every user database and hash function. -/
theorem claim_C1_basic_auth_current_user_uncaught_binascii_error :
    ∀ (hash : String → String) (db : List UserRec),
      BasicAuth.current_user hash db (some ⟨some "Basic a", none⟩) =
        Except.error (PyErr.binasciiError
          "Invalid base64-encoded string: number of data characters cannot be 1 more than a multiple of 4") :=
  fun _ _ => rfl

/-- Claim C2, counterexample: create_session does accept an empty
user_id (SessionAuth stores a session for the empty string) and
SessionDBAuth.create_session accepts even None, creating a record, so
the claim that every invalid user_id yields None is false. -/
theorem claim_C2_counterexample :
    (SessionAuth.create_session ⟨[]⟩ (some "") "sid-1").1 = some "sid-1" ∧
    (SessionDBAuth.create_session [] none "sid-2" "rid-2" 0).1 = some "sid-2" ∧
    (SessionDBAuth.create_session [] none "sid-2" "rid-2" 0).2 ≠ [] := by
  refine ⟨rfl, rfl, ?_⟩
  decide

/-- Claim C2 as amended: SessionAuth and SessionExpAuth reject exactly a
None (or non-string) user_id and accept every string including the empty
one; SessionDBAuth.create_session validates nothing, always returns the
generated session id, and always persists a record. -/
theorem claim_C2_create_session_validation :
    (∀ (st : SessionAuthState) (nsid : String),
      SessionAuth.create_session st none nsid = (none, st)) ∧
    (∀ (st : SessionAuthState) (uid nsid : String),
      (SessionAuth.create_session st (some uid) nsid).1 = some nsid) ∧
    (∀ (st : SessionExpAuthState) (nsid : String) (now : Int),
      SessionExpAuth.create_session st none nsid now = (none, st)) ∧
    (∀ (st : SessionExpAuthState) (uid nsid : String) (now : Int), nsid ≠ "" →
      (SessionExpAuth.create_session st (some uid) nsid now).1 = some nsid) ∧
    (∀ (storage : List UserSessionRec) (uid? : Option String) (nsid rid : String) (now : Int),
      (SessionDBAuth.create_session storage uid? nsid rid now).1 = some nsid ∧
      ∃ r ∈ (SessionDBAuth.create_session storage uid? nsid rid now).2,
        r.session_id = some nsid) := by
  refine ⟨fun st nsid => rfl, fun st uid nsid => rfl, fun st nsid now => rfl, ?_, ?_⟩
  · intro st uid nsid now h
    unfold SessionExpAuth.create_session
    simp [h]
  · intro storage uid? nsid rid now
    refine ⟨rfl, ⟨⟨rid, uid?, some nsid, now⟩, ?_, rfl⟩⟩
    exact mem_upsertById_self storage _

/-- Witness for claim C2 at concrete inputs. -/
theorem claim_C2_witness :
    (SessionExpAuth.create_session (SessionExpAuth.init none) (some "u1") "sid-9" 0).1 =
      some "sid-9" :=
  claim_C2_create_session_validation.2.2.2.1 (SessionExpAuth.init none) "u1" "sid-9" 0 (by decide)

/-- Claim C3: for a non-positive TTL the session_exp_auth ExpiringDict
lookup never evicts anything; for a positive TTL, once the elapsed time
since the set exceeds the TTL, the lookup returns None and removes the
key, after which membership is false. -/
theorem claim_C3_expiring_dict_ttl_semantics (V : Type) :
    ∀ (d : ExpiringDict V) (key : String) (v : V) (tset tnow : Int),
      (d.expiration_time ≤ 0 → ∀ k2, (ExpiringDict.getItemExp d k2 tnow).2 = d) ∧
      (0 < d.expiration_time → tnow - tset > d.expiration_time →
        (ExpiringDict.getItemExp (d.setItem key v tset) key tnow).1 = none ∧
        ((ExpiringDict.getItemExp (d.setItem key v tset) key tnow).2.containsKey key) = false) := by
  intro d key v tset tnow
  constructor
  · intro hle k2
    cases hg : dictGet? d.data k2 with
    | none => rw [ExpiringDict.getItemExp_absent tnow hg]
    | some e =>
      cases hc : e.created_at with
      | none => rw [ExpiringDict.getItemExp_noCreated tnow hg hc]
      | some t =>
        rw [ExpiringDict.getItemExp_valid hg hc (ExpiringDict.is_valid_nonpos d k2 tnow hle)]
  · intro hpos hexp
    have hget : dictGet? (d.setItem key v tset).data key =
        some { value := v, created_at := some tset } :=
      dictGet?_dictSet_self d.data key _
    have hinv : (d.setItem key v tset).is_valid key tnow = false := by
      unfold ExpiringDict.is_valid
      rw [hget]
      have h1 : ¬ ((d.setItem key v tset).expiration_time ≤ 0) := by
        show ¬ (d.expiration_time ≤ 0)
        omega
      rw [if_neg h1]
      have h2 : ¬ (tset + (d.setItem key v tset).expiration_time ≥ tnow) := by
        show ¬ (tset + d.expiration_time ≥ tnow)
        omega
      simp [h2]
    rw [ExpiringDict.getItemExp_expired hget rfl hinv]
    exact ⟨rfl, ExpiringDict.containsKey_expire_key_self _ key⟩

/-- Witness for claim C3: TTL 0 lookup leaves the map intact; TTL 1 with
5 elapsed seconds evicts and membership turns false. -/
theorem claim_C3_witness :
    (ExpiringDict.getItemExp (⟨0, [("k", ⟨5, some 0⟩)]⟩ : ExpiringDict Nat) "x" 99).2 =
      (⟨0, [("k", ⟨5, some 0⟩)]⟩ : ExpiringDict Nat) ∧
    (ExpiringDict.getItemExp
      (ExpiringDict.setItem (⟨1, []⟩ : ExpiringDict Nat) "k" 7 0) "k" 5).1 = none ∧
    (ExpiringDict.getItemExp
      (ExpiringDict.setItem (⟨1, []⟩ : ExpiringDict Nat) "k" 7 0) "k" 5).2.containsKey "k" =
      false :=
  ⟨(claim_C3_expiring_dict_ttl_semantics Nat ⟨0, [("k", ⟨5, some 0⟩)]⟩ "k" 7 0 99).1
      (by decide) "x",
   (claim_C3_expiring_dict_ttl_semantics Nat ⟨1, []⟩ "k" 7 0 5).2 (by decide) (by decide)⟩

/-- Claim C4: for every session-capable variant, a create_session that
returns a session id is immediately resolvable to the same user id.
The uuid4 generator is an oracle argument; the claim's freshness clause
(not previously issued, with overwhelming probability) is the standard
uuid4 collision bound and enters as the freshness hypothesis of the
persistent variant, whose search returns the first record in insertion
order. -/
theorem claim_C4_create_then_resolve :
    (∀ (st : SessionAuthState) (uid new_sid : String), uid ≠ "" → new_sid ≠ "" →
      (SessionAuth.create_session st (some uid) new_sid).1 = some new_sid ∧
      SessionAuth.user_id_for_session_id (SessionAuth.create_session st (some uid) new_sid).2
        (some new_sid) = some uid) ∧
    (∀ (st : SessionExpAuthState) (uid new_sid : String) (now : Int), uid ≠ "" → new_sid ≠ "" →
      (SessionExpAuth.create_session st (some uid) new_sid now).1 = some new_sid ∧
      (SessionExpAuth.user_id_for_session_id
        (SessionExpAuth.create_session st (some uid) new_sid now).2 (some new_sid) now).1 =
        some uid) ∧
    (∀ (storage : List UserSessionRec) (uid new_sid rid : String) (dur now : Int),
      (∀ r ∈ storage, r.session_id ≠ some new_sid) →
      (SessionDBAuth.create_session storage (some uid) new_sid rid now).1 = some new_sid ∧
      SessionDBAuth.user_id_for_session_id
        (SessionDBAuth.create_session storage (some uid) new_sid rid now).2 (some new_sid)
        dur now =
        Except.ok (some uid,
          (SessionDBAuth.create_session storage (some uid) new_sid rid now).2)) := by
  refine ⟨?_, ?_, ?_⟩
  · intro st uid new_sid huid hsid
    refine ⟨rfl, ?_⟩
    rw [sessionAuth_resolve_eq _ new_sid hsid]
    exact dictGet?_dictSet_self st.user_id_by_session_id new_sid uid
  · intro st uid new_sid now huid hsid
    have hc : SessionExpAuth.create_session st (some uid) new_sid now =
        (some new_sid, { st with store := st.store.setItem new_sid ⟨uid, now⟩ now }) := by
      simp [SessionExpAuth.create_session, hsid]
    rw [hc]
    refine ⟨rfl, ?_⟩
    rw [sessionExpAuth_resolve_eq _ new_sid now]
    rw [ExpiringDict.getItemExp_valid (dictGet?_dictSet_self st.store.data new_sid _) rfl
      (is_valid_setItem_now st.store new_sid ⟨uid, now⟩ now)]
    rfl
  · intro storage uid new_sid rid dur now hfresh
    refine ⟨rfl, ?_⟩
    have hs : userSessionSearch
        (SessionDBAuth.create_session storage (some uid) new_sid rid now).2 (some new_sid) =
        [⟨rid, some uid, some new_sid, now⟩] :=
      userSessionSearch_upsert_fresh storage _ new_sid hfresh rfl
    simp only [SessionDBAuth.user_id_for_session_id, hs]
    rw [if_neg (show ¬ (now > now + dur ∧ dur > 0) by omega)]

/-- Witness for claim C4: the in-memory and the persistent variant at
concrete inputs. -/
theorem claim_C4_witness :
    ((SessionAuth.create_session ⟨[]⟩ (some "user-42") "s1").1 = some "s1" ∧
      SessionAuth.user_id_for_session_id
        (SessionAuth.create_session ⟨[]⟩ (some "user-42") "s1").2 (some "s1") =
        some "user-42") ∧
    ((SessionDBAuth.create_session [] (some "user-42") "s2" "r1" 0).1 = some "s2" ∧
      SessionDBAuth.user_id_for_session_id
        (SessionDBAuth.create_session [] (some "user-42") "s2" "r1" 0).2 (some "s2") 3 0 =
        Except.ok (some "user-42",
          (SessionDBAuth.create_session [] (some "user-42") "s2" "r1" 0).2)) :=
  ⟨claim_C4_create_then_resolve.1 ⟨[]⟩ "user-42" "s1" (by decide) (by decide),
   claim_C4_create_then_resolve.2.2 [] "user-42" "s2" "r1" 3 0 (by simp)⟩

/-- Claim C5, counterexample: an entry one second of TTL past its
creation is expired at time 10, yet membership still reports true,
because both copies of ExpiringDict.__contains__ test only the backing
dict, contradicting the claim that contains is true only if the key is
present and not expired. -/
theorem claim_C5_counterexample :
    ExpiringDict.is_valid (⟨1, [("k", ⟨7, some 0⟩)]⟩ : ExpiringDict Nat) "k" 10 = false ∧
    ExpiringDict.containsKey (⟨1, [("k", ⟨7, some 0⟩)]⟩ : ExpiringDict Nat) "k" = true := by
  decide

/-- Claim C5 as amended: contains reports bare membership in the backing
dict, ignoring expiration; an expired entry stays contained until a
lookup evicts it, and after such an eviction contains is false. -/
theorem claim_C5_contains_membership (V : Type) :
    ∀ (d : ExpiringDict V) (k : String) (now : Int),
      d.containsKey k = (dictGet? d.data k).isSome ∧
      (∀ e t, dictGet? d.data k = some e → e.created_at = some t →
        d.is_valid k now = false →
        (ExpiringDict.getItemExp d k now).2.containsKey k = false ∧
        (ExpiringDict.getItemUtils d k now).2.containsKey k = false) := by
  intro d k now
  refine ⟨rfl, ?_⟩
  intro e t hg hc hv
  rw [ExpiringDict.getItemExp_expired hg hc hv, ExpiringDict.getItemUtils_expired hg hc hv]
  exact ⟨ExpiringDict.containsKey_expire_key_self d k, ExpiringDict.containsKey_expire_key_self d k⟩

/-- Witness for claim C5 at a concrete expired entry. -/
theorem claim_C5_witness :
    (⟨1, [("k", ⟨7, some 0⟩)]⟩ : ExpiringDict Nat).containsKey "k" =
      (dictGet? [("k", (⟨7, some 0⟩ : Entry Nat))] "k").isSome ∧
    (ExpiringDict.getItemExp (⟨1, [("k", ⟨7, some 0⟩)]⟩ : ExpiringDict Nat) "k" 10).2.containsKey
      "k" = false ∧
    (ExpiringDict.getItemUtils (⟨1, [("k", ⟨7, some 0⟩)]⟩ : ExpiringDict Nat) "k" 10).2.containsKey
      "k" = false :=
  ⟨(claim_C5_contains_membership Nat ⟨1, [("k", ⟨7, some 0⟩)]⟩ "k" 10).1,
   (claim_C5_contains_membership Nat ⟨1, [("k", ⟨7, some 0⟩)]⟩ "k" 10).2 ⟨7, some 0⟩ 0
     (by decide) rfl (by decide)⟩

/-- Claim C6, failing evaluation: the in-memory variants do return
false and leave the store unchanged when the destroyed session id has no
record, but the persistent variant raises: both of its if-not-sessions
guards test an always-truthy Query object (Query defines neither
__bool__ nor __len__), so destroying or resolving a session id with no
matching record dereferences the None that Query.first() returns and
raises AttributeError instead of returning false. -/
theorem claim_C6_db_nonexistent_destroy_raises :
    SessionAuth.destroy_session ⟨[]⟩ (some ⟨none, some "zz"⟩) = (false, ⟨[]⟩) ∧
    SessionExpAuth.destroy_session ⟨5, ⟨5, []⟩⟩ (some ⟨none, some "zz"⟩) 0 =
      (false, ⟨5, ⟨5, []⟩⟩) ∧
    SessionDBAuth.destroy_session [] (some ⟨none, some "zz"⟩) =
      Except.error (PyErr.attributeError "NoneType object has no attribute remove") ∧
    SessionDBAuth.user_id_for_session_id [] (some "zz") 5 0 =
      Except.error (PyErr.attributeError "NoneType object has no attribute created_at") :=
  ⟨rfl, rfl, rfl, rfl⟩

/-- Claim C7: require_auth fails secure on a missing or empty path or an
empty exclusion list, normalizes the path to a trailing slash, and
requires no auth exactly when some excluded pattern matches the
normalized path, including the four concrete examples of the spec. -/
theorem claim_C7_require_auth_contract :
    (∀ e : List String, require_auth none e = true) ∧
    (∀ e : List String, require_auth (some "") e = true) ∧
    (∀ p : String, require_auth (some p) [] = true) ∧
    (∀ (p : String) (e : List String), p ≠ "" → e ≠ [] →
      (require_auth (some p) e = false ↔
        e.any (fun pat => reMatchChars pat.toList (normalizePathL p.toList)) = true)) ∧
    require_auth (some "/api/v1/status/") ["/api/v1/status/"] = false ∧
    require_auth (some "/api/v1/status") ["/api/v1/status/"] = false ∧
    require_auth (some "/api/v1/users/") ["/api/v1/status/"] = true ∧
    require_auth (some "/public/anything/") ["/public/*"] = false ∧
    require_auth (some "/publicx/") ["/public/*"] = true := by
  refine ⟨fun e => rfl, ?_, ?_, ?_, by decide, by decide, by decide, by decide, by decide⟩
  · intro e
    simp [require_auth]
  · intro p
    simp [require_auth]
  · intro p e hp he
    simp [require_auth, hp, he]

/-- Witness for claim C7: the matching characterization instantiated at
a concrete path and exclusion list. -/
theorem claim_C7_witness :
    require_auth (some "/api/v1") ["/x/"] = false ↔
      (["/x/"].any fun pat => reMatchChars pat.toList (normalizePathL "/api/v1".toList)) = true :=
  claim_C7_require_auth_contract.2.2.2.1 "/api/v1" ["/x/"] (by decide) (by decide)

/-- Claim C8: the factory map and its raise-on-unknown-key contract can
never take effect, because auth_factory_provider.py imports
SessionDBAuthFactory from auth_factory.py, which does not define it: the
provider module fails to load with ImportError for every configuration
key, instead of mapping the four recognized keys to authenticator
instances. -/
theorem claim_C8_provider_import_error :
    importProvider = Except.error "ImportError: cannot import name SessionDBAuthFactory" ∧
    authFactoryDefinedNames.contains "SessionDBAuthFactory" = false :=
  ⟨rfl, by decide⟩

/-- Claim C9: an unset SESSION_DURATION or one that int() cannot parse
makes SessionExpAuth start with session_duration 0, and a TTL of zero
makes every entry permanently valid: lookups never evict, so expiration
is silently disabled. -/
theorem claim_C9_malformed_duration_never_expires :
    (∀ env : Option String,
      (env = none ∨ ∃ s, env = some s ∧ pyIntOfString s = none) →
      (SessionExpAuth.init env).session_duration = 0 ∧
      (SessionExpAuth.init env).store.expiration_time = 0) ∧
    (∀ (d : ExpiringDict SessionRecord) (k : String) (now : Int),
      d.expiration_time = 0 →
      d.is_valid k now = true ∧ (ExpiringDict.getItemExp d k now).2 = d) := by
  constructor
  · intro env henv
    rcases henv with h | ⟨s, hs, hp⟩
    · subst h
      exact ⟨rfl, rfl⟩
    · subst hs
      constructor
      · show (pyIntOfString s).getD 0 = 0
        rw [hp]
        rfl
      · show (pyIntOfString s).getD 0 = 0
        rw [hp]
        rfl
  · intro d k now hz
    have hle : d.expiration_time ≤ 0 := by omega
    exact ⟨ExpiringDict.is_valid_nonpos d k now hle, ExpiringDict.getItemExp_snd_nonpos d k now hle⟩

/-- Witness for claim C9: the unparseable value abc yields duration 0,
and a zero-TTL store never invalidates a ten-year-old entry. -/
theorem claim_C9_witness :
    ((SessionExpAuth.init (some "abc")).session_duration = 0 ∧
      (SessionExpAuth.init (some "abc")).store.expiration_time = 0) ∧
    ((⟨0, [("k", ⟨⟨"u", 0⟩, some 0⟩)]⟩ : ExpiringDict SessionRecord).is_valid "k" 315360000 =
        true ∧
      (ExpiringDict.getItemExp
        (⟨0, [("k", ⟨⟨"u", 0⟩, some 0⟩)]⟩ : ExpiringDict SessionRecord) "k" 315360000).2 =
        (⟨0, [("k", ⟨⟨"u", 0⟩, some 0⟩)]⟩ : ExpiringDict SessionRecord)) :=
  ⟨claim_C9_malformed_duration_never_expires.1 (some "abc") (Or.inr ⟨"abc", rfl, by decide⟩),
   claim_C9_malformed_duration_never_expires.2 ⟨0, [("k", ⟨⟨"u", 0⟩, some 0⟩)]⟩ "k" 315360000 rfl⟩

/-- Claim C10: both ExpiringDict lookups and the defaulted get are total
and never raise: the Except-instrumented versions, in which the raw dict
subscription can raise KeyError, always return ok with the plain result;
an absent key yields None (or the supplied default for get), and an
entry without created_at or past its TTL yields None. -/
theorem claim_C10_lookup_total_never_raises (V : Type) :
    ∀ (d : ExpiringDict V) (k : String) (dflt : Option V) (now : Int),
      ExpiringDict.getItemExpE d k now = Except.ok (ExpiringDict.getItemExp d k now) ∧
      ExpiringDict.getItemUtilsE d k now = Except.ok (ExpiringDict.getItemUtils d k now) ∧
      ExpiringDict.getE d k dflt now = Except.ok (ExpiringDict.getU d k dflt now) ∧
      (dictGet? d.data k = none →
        (ExpiringDict.getItemExp d k now).1 = none ∧
        (ExpiringDict.getItemUtils d k now).1 = none ∧
        (ExpiringDict.getU d k dflt now).1 = dflt) ∧
      (∀ e, dictGet? d.data k = some e → e.created_at = none →
        (ExpiringDict.getItemExp d k now).1 = none ∧
        (ExpiringDict.getItemUtils d k now).1 = none) ∧
      (∀ e t, dictGet? d.data k = some e → e.created_at = some t →
        d.is_valid k now = false →
        (ExpiringDict.getItemExp d k now).1 = none ∧
        (ExpiringDict.getItemUtils d k now).1 = none) := by
  intro d k dflt now
  refine ⟨ExpiringDict.getItemExpE_agrees d k now, ExpiringDict.getItemUtilsE_agrees d k now,
    ExpiringDict.getE_agrees d k dflt now, ?_, ?_, ?_⟩
  · intro hg
    rw [ExpiringDict.getItemExp_absent now hg, ExpiringDict.getItemUtils_absent now hg,
      ExpiringDict.getU_absent dflt now hg]
    exact ⟨rfl, rfl, rfl⟩
  · intro e hg hc
    rw [ExpiringDict.getItemExp_noCreated now hg hc, ExpiringDict.getItemUtils_noCreated now hg hc]
    exact ⟨rfl, rfl⟩
  · intro e t hg hc hv
    rw [ExpiringDict.getItemExp_expired hg hc hv, ExpiringDict.getItemUtils_expired hg hc hv]
    exact ⟨rfl, rfl⟩

/-- Witness for claim C10: an absent key, an entry with no created_at,
and an expired entry, each evaluated on a concrete store. -/
theorem claim_C10_witness :
    (ExpiringDict.getItemExp
      (⟨1, [("a", ⟨5, none⟩), ("b", ⟨6, some 0⟩)]⟩ : ExpiringDict Nat) "z" 100).1 = none ∧
    (ExpiringDict.getU
      (⟨1, [("a", ⟨5, none⟩), ("b", ⟨6, some 0⟩)]⟩ : ExpiringDict Nat) "z" (some 9) 100).1 =
      some 9 ∧
    (ExpiringDict.getItemExp
      (⟨1, [("a", ⟨5, none⟩), ("b", ⟨6, some 0⟩)]⟩ : ExpiringDict Nat) "a" 100).1 = none ∧
    (ExpiringDict.getItemUtils
      (⟨1, [("a", ⟨5, none⟩), ("b", ⟨6, some 0⟩)]⟩ : ExpiringDict Nat) "a" 100).1 = none ∧
    (ExpiringDict.getItemExp
      (⟨1, [("a", ⟨5, none⟩), ("b", ⟨6, some 0⟩)]⟩ : ExpiringDict Nat) "b" 100).1 = none ∧
    (ExpiringDict.getItemUtils
      (⟨1, [("a", ⟨5, none⟩), ("b", ⟨6, some 0⟩)]⟩ : ExpiringDict Nat) "b" 100).1 = none := by
  have h1 := (claim_C10_lookup_total_never_raises Nat
    ⟨1, [("a", ⟨5, none⟩), ("b", ⟨6, some 0⟩)]⟩ "z" (some 9) 100).2.2.2.1 (by decide)
  have h2 := (claim_C10_lookup_total_never_raises Nat
    ⟨1, [("a", ⟨5, none⟩), ("b", ⟨6, some 0⟩)]⟩ "a" none 100).2.2.2.2.1 ⟨5, none⟩
    (by decide) rfl
  have h3 := (claim_C10_lookup_total_never_raises Nat
    ⟨1, [("a", ⟨5, none⟩), ("b", ⟨6, some 0⟩)]⟩ "b" none 100).2.2.2.2.2 ⟨6, some 0⟩ 0
    (by decide) rfl (by decide)
  exact ⟨h1.1, h1.2.2, h2.1, h2.2, h3.1, h3.2⟩
